import Mathlib

/-!
Verification of the ChildSafe Risk Aggregation Engine.

Shallow embedding of the decision logic of
`backend/app/services/health_report_service.py` and
`backend/app/services/lifestyle_service.py`: the lifestyle risk
calculator, the vulnerability multiplier, the environmental risk
aggregator, the level classifier, the contributing-factor generator and
the feature-vector builder.  All Python floats are modelled as exact
rationals (ℚ); every arithmetic constant appearing in the source
(0.5, 0.25, 0.6, 0.4, …) is exactly representable, so no rounding
discrepancy arises.  Python strings are Lean `String`s; Python's
truthiness test on an optional string (`if s:`) is modelled as
"present and non-empty"; `str.lower()` is modelled by ASCII
lowercasing, which agrees with Python on every comparison the engine
performs (all lookup keys are ASCII).
-/

namespace ChildSafe

/-- ASCII lowercase of a character (models Python `str.lower` on the
alphabet relevant to the engine's lookups). -/
def lowerChar (c : Char) : Char :=
  if 'A' ≤ c ∧ c ≤ 'Z' then Char.ofNat (c.toNat + 32) else c

/-- ASCII uppercase of a character (used by Python `str.capitalize`). -/
def upperChar (c : Char) : Char :=
  if 'a' ≤ c ∧ c ≤ 'z' then Char.ofNat (c.toNat - 32) else c

/-- Models Python `s.lower()`. -/
def lowerStr (s : String) : String :=
  String.mk (s.data.map lowerChar)

/-- Models Python `s.capitalize()`: first character uppercased, the
rest lowercased. -/
def capitalizeStr (s : String) : String :=
  match s.data with
  | [] => ""
  | c :: t => String.mk (upperChar c :: t.map lowerChar)

/-- Predicate `isPre n h` holds when the character list `n` starts list `h`. -/
def isPre : List Char → List Char → Bool
  | [], _ => true
  | _ :: _, [] => false
  | a :: as, b :: bs => a == b && isPre as bs

/-- Predicate `containsSub n h`: `n` occurs as a contiguous sublist of `h`
(models Python's `n in h` on strings). -/
def containsSub (needle : List Char) : List Char → Bool
  | [] => isPre needle []
  | c :: t => isPre needle (c :: t) || containsSub needle t

/-- Python `needle in hay` on strings. -/
def strIn (needle hay : String) : Bool :=
  containsSub needle.data hay.data

/-! ## Data model (`app/schemas`) -/

/-- Structure `AirQualityData` from `app/schemas/air_quality.py`; `aqi` is a
plain `int` field with no range constraint. -/
structure AirQualityData where
  aqi : Int
  pm25 : ℚ
  pm10 : ℚ
  co : ℚ
  no2 : ℚ
  so2 : ℚ
  o3 : ℚ
deriving DecidableEq

/-- The part of `AirQualityResponse` read by the engine. -/
structure AirQualityResponse where
  data : AirQualityData
  primary_pollutant : String
deriving DecidableEq

/-- Structure `SoilProperties` from `app/schemas/soil.py`; `contamination_risk`
is a required `str` (it may still be the empty string, which Python
treats as falsy). -/
structure SoilProperties where
  soil_type : String
  ph : ℚ
  organic_matter : ℚ
  contamination_risk : String
deriving DecidableEq

/-- The part of `SoilDataResponse` read by the engine. -/
structure SoilDataResponse where
  properties : SoilProperties
deriving DecidableEq

/-- The part of `WaterDataResponse` (`app/schemas/water.py`) read by
the engine; `ph`, `hardness` and `contamination_risk` are `Optional`
fields defaulting to `None`. -/
structure WaterDataResponse where
  ph : Option ℚ
  hardness : Option String
  contamination_risk : Option String
deriving DecidableEq

/-- The `AgeRange` enum from `app/schemas/lifestyle.py`. -/
inductive AgeRange
  | teen | young_adult | adult | middle_age | senior | elderly
deriving DecidableEq

/-- The `.value` string of each `AgeRange` member. -/
def AgeRange.value : AgeRange → String
  | .teen => "13-17"
  | .young_adult => "18-25"
  | .adult => "26-35"
  | .middle_age => "36-50"
  | .senior => "51-65"
  | .elderly => "65+"

/-- The `SmokingStatus` enum. -/
inductive SmokingStatus
  | never | former | current
deriving DecidableEq

/-- The `.value` string of each `SmokingStatus` member. -/
def SmokingStatus.value : SmokingStatus → String
  | .never => "never"
  | .former => "former"
  | .current => "current"

/-- The `ActivityLevel` enum. -/
inductive ActivityLevel
  | sedentary | moderate | active
deriving DecidableEq

/-- The `.value` string of each `ActivityLevel` member. -/
def ActivityLevel.value : ActivityLevel → String
  | .sedentary => "sedentary"
  | .moderate => "moderate"
  | .active => "active"

/-- The `WorkEnvironment` enum. -/
inductive WorkEnvironment
  | indoor | outdoor | mixed
deriving DecidableEq

/-- The `.value` string of each `WorkEnvironment` member. -/
def WorkEnvironment.value : WorkEnvironment → String
  | .indoor => "indoor"
  | .outdoor => "outdoor"
  | .mixed => "mixed"

/-- Structure `LifestyleInput` from `app/schemas/lifestyle.py`, restricted to the
fields the risk engine reads (`name`, `years_at_location`,
`medications`, `family_history`, `home_environment`,
`occupational_details` and `quiz_responses` are stored but never read
by any scoring function). `Option` models a Python `Optional` field
holding `None`. -/
structure LifestyleInput where
  age_range : AgeRange
  gender : Option String
  smoking_status : SmokingStatus
  activity_level : ActivityLevel
  work_environment : WorkEnvironment
  diet_quality : Option String
  sleep_hours : Option String
  stress_level : Option String
  medical_history : Option (List String)
deriving DecidableEq

/-- Structure `ContributingFactor` from `app/schemas/health_report.py`. -/
structure ContributingFactor where
  category : String
  factor : String
  impact : String
  severity : String
deriving DecidableEq

/-! ## Lifestyle service (`app/services/lifestyle_service.py`) -/

/-- Table `LifestyleService.SMOKING_SCORES`, accessed with `.get(key, 0)`. -/
def SMOKING_SCORES (s : String) : ℚ :=
  if s = "never" then 0 else if s = "former" then 15
  else if s = "current" then 40 else 0

/-- Table `LifestyleService.ACTIVITY_SCORES`, accessed with `.get(key, 0)`. -/
def ACTIVITY_SCORES (s : String) : ℚ :=
  if s = "active" then 0 else if s = "moderate" then 10
  else if s = "sedentary" then 25 else 0

/-- Table `LifestyleService.WORK_ENV_SCORES`, accessed with `.get(key, 0)`. -/
def WORK_ENV_SCORES (s : String) : ℚ :=
  if s = "outdoor" then 5 else if s = "mixed" then 3
  else if s = "indoor" then 0 else 0

/-- Table `LifestyleService.STRESS_SCORES`, accessed with `.get(key, 0)`. -/
def STRESS_SCORES (s : String) : ℚ :=
  if s = "low" then 0 else if s = "medium" then 10
  else if s = "high" then 20 else 0

/-- Function `LifestyleService._get_age_multiplier`. -/
def get_age_multiplier (age_range : String) : ℚ :=
  if age_range = "13-17" then 0.8
  else if age_range = "18-25" then 0.9
  else if age_range = "26-35" then 1.0
  else if age_range = "36-50" then 1.1
  else if age_range = "51-65" then 1.2
  else if age_range = "65+" then 1.3
  else 1.0

/-- Function `LifestyleService.calculate_lifestyle_risk`: returns
`(risk_score, risk_factors, positive_factors)`.  Each branch appends
the exact factor string from the source; accumulation order follows
the statement order of the Python function. -/
def calculate_lifestyle_risk (lifestyle : LifestyleInput) :
    ℚ × List String × List String :=
  let smoking_risk := SMOKING_SCORES lifestyle.smoking_status.value
  let score1 : ℚ := 0 + smoking_risk
  let rf1 : List String :=
    if smoking_risk = 0 then []
    else if smoking_risk > 30 then
      ["Current smoker - significant health risk factor"]
    else ["Former smoker - reduced but present health impact"]
  let pf1 : List String :=
    if smoking_risk = 0 then
      ["Non-smoker - excellent respiratory health foundation"]
    else []
  let activity_risk := ACTIVITY_SCORES lifestyle.activity_level.value
  let score2 := score1 + activity_risk
  let rf2 : List String :=
    if activity_risk = 0 then []
    else if activity_risk > 20 then
      ["Sedentary lifestyle - increases multiple health risks"]
    else []
  let pf2 : List String :=
    if activity_risk = 0 then
      ["Active lifestyle - strong cardiovascular protection"]
    else if activity_risk > 20 then []
    else ["Moderate activity level - good health maintenance"]
  let work_risk := WORK_ENV_SCORES lifestyle.work_environment.value
  let score3 := score2 + work_risk
  let rf3 : List String :=
    if work_risk > 0 then
      [capitalizeStr lifestyle.work_environment.value ++
        " work environment - increased environmental exposure"]
    else []
  let stressStep : ℚ × List String :=
    match lifestyle.stress_level with
    | none => (score3, [])
    | some s =>
      if s = "" then (score3, [])
      else
        let stress_risk := STRESS_SCORES s
        (score3 + stress_risk,
          if stress_risk > 15 then
            ["High stress level - impacts immune system and overall health"]
          else if stress_risk > 0 then
            ["Moderate stress level - manageable with interventions"]
          else [])
  let score4 := stressStep.1
  let rf4 := stressStep.2
  let dietStep : ℚ × List String × List String :=
    match lifestyle.diet_quality with
    | none => (score4, [], [])
    | some d =>
      if d = "" then (score4, [], [])
      else if d = "good" then
        (score4, [], ["Good diet quality - supports immune function"])
      else if d = "poor" then
        (score4 + 15,
          ["Poor diet quality - affects overall health resilience"], [])
      else (score4, [], [])
  let score5 := dietStep.1
  let rf5 := dietStep.2.1
  let pf5 := dietStep.2.2
  let sleepStep : ℚ × List String × List String :=
    match lifestyle.sleep_hours with
    | none => (score5, [], [])
    | some h =>
      if h = "" then (score5, [], [])
      else if h = "6-8" then
        (score5, [],
          ["Adequate sleep - supports recovery and immune function"])
      else if h = "<6" then
        (score5 + 15, ["Insufficient sleep - weakens immune response"], [])
      else (score5, [], [])
  let score6 := sleepStep.1
  let rf6 := sleepStep.2.1
  let pf6 := sleepStep.2.2
  let age_multiplier := get_age_multiplier lifestyle.age_range.value
  let final_score := score6 * age_multiplier
  (min final_score 100,
    rf1 ++ rf2 ++ rf3 ++ rf4 ++ rf5 ++ rf6,
    pf1 ++ pf2 ++ pf5 ++ pf6)

/-! ## Vulnerability multiplier
(`HealthReportService._calculate_vulnerability_multiplier`) -/

/-- A medical-history entry (lowercased) matches a respiratory
keyword: `any(x in c for x in ["asthma","copd","bronchitis","lung"])`. -/
def respMatch (cl : String) : Bool :=
  strIn "asthma" cl || strIn "copd" cl || strIn "bronchitis" cl ||
    strIn "lung" cl

/-- A lowercased entry matches `"heart" in c or "cardio" in c`. -/
def heartMatch (cl : String) : Bool :=
  strIn "heart" cl || strIn "cardio" cl

/-- A lowercased entry matches `"allergy" in c`. -/
def allergyMatch (cl : String) : Bool :=
  strIn "allergy" cl

/-- The bonus one medical-history entry adds in the loop body of
`_calculate_vulnerability_multiplier`: an `if / elif / elif` chain on
the lowercased entry. -/
def conditionBonus (condition : String) : ℚ :=
  let condition_lower := lowerStr condition
  if respMatch condition_lower then 0.4
  else if heartMatch condition_lower then 0.3
  else if allergyMatch condition_lower then 0.1
  else 0

/-- Python `round(x, 2)` on the multiplier.  Every increment is a
multiple of 1/10, so the value times 100 is an integer and all
rounding modes agree; we use round-half-up. -/
def round2 (q : ℚ) : ℚ := (round (q * 100) : ℤ) / 100

/-- Function `HealthReportService._calculate_vulnerability_multiplier`. -/
def calculate_vulnerability_multiplier (data : LifestyleInput) : ℚ :=
  let m0 : ℚ := 1.0
  let age_value := data.age_range.value
  let m1 :=
    if age_value = "51-65" ∨ age_value = "65+" then m0 + 0.2
    else if age_value = "13-17" then m0 + 0.1
    else m0
  let m2 :=
    match data.medical_history with
    | none => m1
    | some history => m1 + (history.map conditionBonus).sum
  let pregnant : Bool :=
    match data.gender, data.medical_history with
    | some g, some history =>
      g ≠ "" && lowerStr g = "female" && history ≠ [] &&
        history.any (fun c => strIn "pregnan" (lowerStr c))
    | _, _ => false
  let m3 := if pregnant then m2 + 0.4 else m2
  round2 m3

/-! ## Environmental risk
(`HealthReportService._calculate_environmental_risk`) -/

/-- The `soil_risk_map` dictionary, accessed with `.get(key, 20)`. -/
def soil_risk_map (s : String) : ℚ :=
  if s = "low" then 10 else if s = "medium" then 40
  else if s = "high" then 80 else 20

/-- The `water_risk_map` dictionary, accessed with `.get(key, 20)`. -/
def water_risk_map (s : String) : ℚ :=
  if s = "low" then 10 else if s = "medium" then 45
  else if s = "high" then 85 else 20

/-- Function `HealthReportService._calculate_environmental_risk`.  Python's
`x.lower() if x else "low"` keeps `"low"` for an absent (`None`) or
empty contamination string. -/
def calculate_environmental_risk (air_quality : AirQualityResponse)
    (soil_data : SoilDataResponse) (water_data : WaterDataResponse) : ℚ :=
  let air_risk := min ((air_quality.data.aqi : ℚ) / 500 * 100) 100
  let soil_risk_val :=
    if soil_data.properties.contamination_risk = "" then "low"
    else lowerStr soil_data.properties.contamination_risk
  let soil_risk := soil_risk_map soil_risk_val
  let water_risk_val :=
    match water_data.contamination_risk with
    | none => "low"
    | some s => if s = "" then "low" else lowerStr s
  let water_risk := water_risk_map water_risk_val
  air_risk * 0.5 + soil_risk * 0.25 + water_risk * 0.25

/-- Function `HealthReportService._get_risk_level`. -/
def get_risk_level (risk_score : ℚ) : String :=
  if risk_score < 35 then "low"
  else if risk_score < 65 then "medium"
  else "high"

/-! ## Contributing factors
(`HealthReportService._generate_contributing_factors`) -/

/-- The smoking × pollution interaction factor emitted when
`smoking_status == "current"` and `aqi > 100`. -/
def smokingInteractionFactor : ContributingFactor :=
  { category := "interaction"
    factor := "CRITICAL INTERACTION: Smoking + High Air Pollution dramatically increases cardiovascular risk."
    impact := "negative"
    severity := "high" }

/-- The asthma × pollution interaction factor. -/
def asthmaInteractionFactor : ContributingFactor :=
  { category := "interaction"
    factor := "CRITICAL INTERACTION: Asthma + High Air Pollution"
    impact := "negative"
    severity := "high" }

/-- Function `HealthReportService._generate_contributing_factors`.  Factors are
appended in source order: interaction, air, water, soil, then at most
three lifestyle risk factors and at most three lifestyle positive
factors. -/
def generate_contributing_factors (air_quality : AirQualityResponse)
    (soil_data : SoilDataResponse) (water_data : WaterDataResponse)
    (lifestyle_risk_factors lifestyle_positive_factors : List String)
    (lifestyle_data : Option LifestyleInput) : List ContributingFactor :=
  let interactionF : List ContributingFactor :=
    match lifestyle_data with
    | none => []
    | some ld =>
      if air_quality.data.aqi > 100 then
        (if ld.smoking_status.value = "current" then
          [smokingInteractionFactor] else []) ++
        (if (match ld.medical_history with
             | none => false
             | some history =>
               history ≠ [] &&
                 history.any (fun c => strIn "asthma" (lowerStr c))) then
          [asthmaInteractionFactor] else [])
      else []
  let airF : List ContributingFactor :=
    if air_quality.data.aqi > 100 then
      [{ category := "environmental"
         factor := "High AQI (" ++ toString air_quality.data.aqi ++
           ") - Primary pollutant: " ++ air_quality.primary_pollutant
         impact := "negative", severity := "high" }]
    else if air_quality.data.aqi > 50 then
      [{ category := "environmental"
         factor := "Moderate AQI (" ++ toString air_quality.data.aqi ++ ")"
         impact := "negative", severity := "medium" }]
    else []
  let waterF : List ContributingFactor :=
    match water_data.contamination_risk with
    | none => []
    | some cr =>
      if cr = "" then []
      else if lowerStr cr ≠ "low" then
        let risk_val := lowerStr cr
        [{ category := "environmental"
           factor := capitalizeStr cr ++ " water contamination risk"
           impact := "negative"
           severity :=
             if risk_val = "low" ∨ risk_val = "medium" ∨ risk_val = "high"
             then risk_val else "medium" }]
      else []
  let soil_risk_val :=
    if soil_data.properties.contamination_risk = "" then "low"
    else lowerStr soil_data.properties.contamination_risk
  let soilF : List ContributingFactor :=
    if soil_risk_val ≠ "low" then
      [{ category := "environmental"
         factor := capitalizeStr soil_data.properties.contamination_risk ++
           " soil contamination risk"
         impact := "negative"
         severity :=
           if soil_risk_val = "low" ∨ soil_risk_val = "medium" ∨
               soil_risk_val = "high"
           then soil_risk_val else "medium" }]
    else []
  let lifeRiskF : List ContributingFactor :=
    (lifestyle_risk_factors.take 3).map fun s =>
      { category := "lifestyle", factor := s
        impact := "negative", severity := "medium" }
  let lifePosF : List ContributingFactor :=
    (lifestyle_positive_factors.take 3).map fun s =>
      { category := "lifestyle", factor := s
        impact := "positive", severity := "medium" }
  interactionF ++ airF ++ waterF ++ soilF ++ lifeRiskF ++ lifePosF

/-! ## Feature vector (`HealthReportService._create_feature_vector`) -/

/-- Function `HealthReportService._create_feature_vector`.  The Python function
builds a `dict`; we model it as an association list in insertion
order.  A value of `none` models a Python `None` placed in the dict
(the `water_ph` entry copies the optional `ph` field verbatim).  Note
the `water_risk` lookup uses the raw, un-lowercased optional string
with default `1`, and the `smoking` entry is binary. -/
def create_feature_vector (air_quality : AirQualityResponse)
    (soil_data : SoilDataResponse) (water_data : WaterDataResponse)
    (lifestyle_data : Option LifestyleInput) :
    List (String × Option ℚ) :=
  let water_risk : ℚ :=
    match water_data.contamination_risk with
    | some s =>
      if s = "low" then 1 else if s = "medium" then 2
      else if s = "high" then 3 else 1
    | none => 1
  let base : List (String × Option ℚ) :=
    [("aqi", some ((air_quality.data.aqi : ℚ))),
     ("soil_ph", some soil_data.properties.ph),
     ("water_ph", water_data.ph),
     ("water_risk", some water_risk)]
  match lifestyle_data with
  | none => base
  | some ld =>
    base ++ [("smoking",
      some (if ld.smoking_status.value ≠ "never" then 1 else 0))]

/-! ## Report generation (`HealthReportService.generate_report`) -/

/-- The scoring fields of the report dict returned by
`HealthReportService.generate_report`. -/
structure Report where
  environmental_risk : ℚ
  lifestyle_risk : ℚ
  risk_score : ℚ
  risk_level : String
  contributing_factors : List ContributingFactor
  feature_vector : List (String × Option ℚ)
  vulnerability_multiplier : ℚ
deriving DecidableEq

/-- The pure scoring core of `HealthReportService.generate_report`
(lines 144-204): data fetching, fallbacks, recommendations and the
narrative summary are outside the risk-engine scope.  The inputs are
the already-fetched typed responses and the optional lifestyle
profile. -/
def generate_report (air_quality : AirQualityResponse)
    (soil_response : SoilDataResponse) (water_response : WaterDataResponse)
    (lifestyle_data : Option LifestyleInput) : Report :=
  let env_risk_base :=
    calculate_environmental_risk air_quality soil_response water_response
  let lifestyleStep : ℚ × List String × List String × ℚ :=
    match lifestyle_data with
    | none => (0, [], [], 1.0)
    | some ld =>
      let r := calculate_lifestyle_risk ld
      (r.1, r.2.1, r.2.2, calculate_vulnerability_multiplier ld)
  let lifestyle_risk := lifestyleStep.1
  let lifestyle_risk_factors := lifestyleStep.2.1
  let lifestyle_positive_factors := lifestyleStep.2.2.1
  let vulnerability_multiplier := lifestyleStep.2.2.2
  let env_risk := min (env_risk_base * vulnerability_multiplier) 100
  let combined_risk := env_risk * 0.6 + lifestyle_risk * 0.4
  let risk_level := get_risk_level combined_risk
  let contributing_factors :=
    generate_contributing_factors air_quality soil_response water_response
      lifestyle_risk_factors lifestyle_positive_factors lifestyle_data
  let feature_vector :=
    create_feature_vector air_quality soil_response water_response
      lifestyle_data
  { environmental_risk := env_risk
    lifestyle_risk := lifestyle_risk
    risk_score := combined_risk
    risk_level := risk_level
    contributing_factors := contributing_factors
    feature_vector := feature_vector
    vulnerability_multiplier := vulnerability_multiplier }

end ChildSafe




namespace ChildSafe

/-! ## Helper lemmas -/

/-- Every per-condition bonus is nonnegative. -/
lemma conditionBonus_nonneg (c : String) : 0 ≤ conditionBonus c := by
  simp only [conditionBonus]
  split_ifs <;> norm_num

/-- Function `round2` sends values ≥ 1 to values ≥ 1. -/
lemma one_le_round2 {q : ℚ} (h : 1 ≤ q) : 1 ≤ round2 q := by
  unfold round2
  rw [round_eq]
  rw [le_div_iff₀ (by norm_num : (0:ℚ) < 100), one_mul]
  have hfl : (100 : ℤ) ≤ ⌊q * 100 + 1 / 2⌋ :=
    Int.le_floor.mpr (by push_cast; linarith)
  exact_mod_cast hfl

/-- The sum of condition bonuses over a history list is nonnegative. -/
lemma conditionBonus_sum_nonneg (h : List String) :
    0 ≤ (h.map conditionBonus).sum := by
  apply List.sum_nonneg
  intro x hx
  obtain ⟨c, _, rfl⟩ := List.mem_map.1 hx
  exact conditionBonus_nonneg c

/-- The age step of the multiplier, rewritten as 1 plus a bonus keyed
on the age-band constructor. -/
lemma age_adjust_eq (age : AgeRange) :
    (if age.value = "51-65" ∨ age.value = "65+" then (1.0:ℚ) + 0.2
     else if age.value = "13-17" then (1.0:ℚ) + 0.1 else 1.0) =
      1 + (if age = .senior ∨ age = .elderly then (0.2:ℚ)
           else if age = .teen then 0.1 else 0) := by
  cases age <;> simp +decide [AgeRange.value] <;> norm_num

/-- The age step of the multiplier is at least 1. -/
lemma age_adjust_ge_one (age : AgeRange) :
    (1:ℚ) ≤ (if age.value = "51-65" ∨ age.value = "65+" then (1.0:ℚ) + 0.2
     else if age.value = "13-17" then (1.0:ℚ) + 0.1 else 1.0) := by
  split_ifs <;> norm_num

/-- The vulnerability multiplier is at least 1 (shared helper). -/
lemma one_le_vulnerability (d : LifestyleInput) :
    1 ≤ calculate_vulnerability_multiplier d := by
  obtain ⟨age, g, sm, act, work, dq, sh, sl, mh⟩ := d
  simp only [calculate_vulnerability_multiplier]
  apply one_le_round2
  have hage := age_adjust_ge_one age
  rcases mh with _ | h
  · rcases g with _ | gs <;> simpa using hage
  · have hsum := conditionBonus_sum_nonneg h
    rcases g with _ | gs
    · simp only [Bool.false_eq_true, if_false]
      linarith
    · split_ifs <;> linarith

/-! ## C5, C6, C10 : the vulnerability multiplier -/

/-- C5.  The vulnerability multiplier starts at 1.0, adds one age
adjustment (+0.2 for the "51-65"/"65+" bands, else +0.1 for "13-17"),
adds the per-entry medical-history bonuses, adds +0.4 when gender is
female and some entry contains "pregnan", and rounds to two decimals;
in particular `["asthma","heart disease"]` at age "65+" yields exactly
1.9. -/
theorem C5_vulnerability_formula :
    (∀ d : LifestyleInput,
      calculate_vulnerability_multiplier d =
        round2 (1
          + (if d.age_range = .senior ∨ d.age_range = .elderly then 0.2
             else if d.age_range = .teen then 0.1 else 0)
          + ((d.medical_history.getD []).map conditionBonus).sum
          + (if lowerStr (d.gender.getD "") = "female" ∧
                (d.medical_history.getD []).any
                  (fun c => strIn "pregnan" (lowerStr c)) = true
             then 0.4 else 0)))
    ∧ calculate_vulnerability_multiplier
        ⟨.elderly, none, .never, .active, .indoor, none, none, none,
          some ["asthma", "heart disease"]⟩ = 1.9 := by
  constructor
  · intro d
    obtain ⟨age, g, sm, act, work, dq, sh, sl, mh⟩ := d
    simp only [calculate_vulnerability_multiplier]
    congr 1
    rcases mh with _ | h <;> rcases g with _ | gs
    · rw [age_adjust_eq age]
      simp +decide
    · rw [age_adjust_eq age]
      simp +decide
    · rw [age_adjust_eq age]
      simp +decide
    · rw [age_adjust_eq age]
      by_cases hf : lowerStr gs = "female"
      · by_cases ha : h.any (fun c => strIn "pregnan" (lowerStr c)) = true
        · have hgs : gs ≠ "" := by
            intro e; rw [e] at hf; exact absurd hf (by decide)
          have hh : h ≠ [] := by
            intro e; rw [e] at ha; simp at ha
          simp [hf, ha, hgs, hh]
        · simp [hf, ha]
      · simp [hf]
  · simp +decide [calculate_vulnerability_multiplier, AgeRange.value,
      conditionBonus, respMatch, heartMatch, allergyMatch, round2]
    norm_num [round_eq]

/-- C6.  For every lifestyle profile the vulnerability multiplier
is at least 1.0: it never reduces environmental exposure. -/
theorem C6_multiplier_ge_one (d : LifestyleInput) :
    1 ≤ calculate_vulnerability_multiplier d :=
  one_le_vulnerability d

/-- C10.  Each medical-history entry contributes at most one bonus,
decided by keyword precedence inside the entry: a respiratory keyword
gives exactly +0.4 and masks heart/cardio and allergy; heart/cardio
gives +0.3 only without a respiratory keyword; allergy gives +0.1 only
when neither is present.  "heart and lung disease" adds +0.4 (not
+0.7), so an adult with only that entry gets multiplier 1.4. -/
theorem C10_condition_precedence :
    (∀ c : String, respMatch (lowerStr c) = true → conditionBonus c = 0.4)
    ∧ (∀ c : String, respMatch (lowerStr c) = false →
        heartMatch (lowerStr c) = true → conditionBonus c = 0.3)
    ∧ (∀ c : String, respMatch (lowerStr c) = false →
        heartMatch (lowerStr c) = false →
        allergyMatch (lowerStr c) = true → conditionBonus c = 0.1)
    ∧ (∀ c : String, respMatch (lowerStr c) = false →
        heartMatch (lowerStr c) = false →
        allergyMatch (lowerStr c) = false → conditionBonus c = 0)
    ∧ conditionBonus "heart and lung disease" = 0.4
    ∧ calculate_vulnerability_multiplier
        ⟨.adult, none, .never, .active, .indoor, none, none, none,
          some ["heart and lung disease"]⟩ = 1.4 := by
  refine ⟨?_, ?_, ?_, ?_, ?_, ?_⟩
  · intro c h; simp [conditionBonus, h]
  · intro c h1 h2; simp [conditionBonus, h1, h2]
  · intro c h1 h2 h3; simp [conditionBonus, h1, h2, h3]
  · intro c h1 h2 h3; simp [conditionBonus, h1, h2, h3]
  · simp +decide [conditionBonus, respMatch, heartMatch, allergyMatch]
  · simp +decide [calculate_vulnerability_multiplier, AgeRange.value,
      conditionBonus, respMatch, heartMatch, allergyMatch, round2]
    norm_num [round_eq]

/-- Witness for C10: the precedence rule applied to the concrete entry
"heart and lung disease", whose respiratory match is discharged by
evaluation. -/
theorem C10_condition_precedence_witness :
    respMatch (lowerStr "heart and lung disease") = true ∧
      conditionBonus "heart and lung disease" = 0.4 :=
  ⟨by decide, C10_condition_precedence.1 "heart and lung disease" (by decide)⟩


/-! ## Concrete sample inputs used by witnesses and counterexamples -/

/-- An air-quality response with AQI 0 and no pollutant load. -/
def aqiZeroAir : AirQualityResponse := ⟨⟨0, 0, 0, 0, 0, 0, 0⟩, "PM2.5"⟩

/-- An air-quality response with AQI 150. -/
def aqi150Air : AirQualityResponse := ⟨⟨150, 0, 0, 0, 0, 0, 0⟩, "PM2.5"⟩

/-- An air-quality response with the impossible AQI -1000. -/
def aqiNegAir : AirQualityResponse := ⟨⟨-1000, 0, 0, 0, 0, 0, 0⟩, "PM2.5"⟩

/-- A soil response with contamination risk "low". -/
def lowSoil : SoilDataResponse := ⟨⟨"loam", 7, 0, "low"⟩⟩

/-- A water response whose optional fields are all absent. -/
def absentWater : WaterDataResponse := ⟨none, none, none⟩

/-- A water response with contamination risk "low". -/
def lowWater : WaterDataResponse := ⟨some 7, some "moderate", some "low"⟩

/-- A teenage current smoker with otherwise best answers and no
optional fields. -/
def teenSmoker : LifestyleInput :=
  ⟨.teen, none, .current, .active, .indoor, none, none, none, none⟩

/-- An adult never-smoker with moderate activity, indoor work and no
optional fields. -/
def moderateAdult : LifestyleInput :=
  ⟨.adult, none, .never, .moderate, .indoor, none, none, none, none⟩

/-! ## Report field shapes -/

/-- How the three numeric report fields are assembled by
`generate_report`. -/
lemma report_fields (air : AirQualityResponse) (soil : SoilDataResponse)
    (water : WaterDataResponse) (ld : Option LifestyleInput) :
    (generate_report air soil water ld).environmental_risk =
      min (calculate_environmental_risk air soil water *
        (match ld with
         | none => 1.0
         | some l => calculate_vulnerability_multiplier l)) 100
    ∧ (generate_report air soil water ld).lifestyle_risk =
      (match ld with
       | none => 0
       | some l => (calculate_lifestyle_risk l).1)
    ∧ (generate_report air soil water ld).risk_score =
      (generate_report air soil water ld).environmental_risk * 0.6 +
        (generate_report air soil water ld).lifestyle_risk * 0.4 := by
  rcases ld with _ | l <;> exact ⟨rfl, rfl, rfl⟩

/-! ## C1 : composite weighting -/

/-- C1.  The composite risk is exactly `env*0.6 + lifestyle*0.4`
(the fixed 60/40 weighting), and for environmental and lifestyle
scores in [0,100] this blend lies in [0,100]. -/
theorem C1_composite_weighting :
    (∀ air soil water ld,
      (generate_report air soil water ld).risk_score =
        (generate_report air soil water ld).environmental_risk * 0.6 +
          (generate_report air soil water ld).lifestyle_risk * 0.4)
    ∧ (∀ e l : ℚ, 0 ≤ e → e ≤ 100 → 0 ≤ l → l ≤ 100 →
        0 ≤ e * 0.6 + l * 0.4 ∧ e * 0.6 + l * 0.4 ≤ 100) := by
  constructor
  · intro air soil water ld
    exact (report_fields air soil water ld).2.2
  · intro e l he0 he1 hl0 hl1
    constructor <;> nlinarith

/-- Witness for C1 at the concrete scores e = 80, l = 20. -/
theorem C1_composite_weighting_witness :
    ((0:ℚ) ≤ 80 ∧ (80:ℚ) ≤ 100 ∧ (0:ℚ) ≤ 20 ∧ (20:ℚ) ≤ 100) ∧
      (0 ≤ (80:ℚ) * 0.6 + 20 * 0.4 ∧ (80:ℚ) * 0.6 + 20 * 0.4 ≤ 100) :=
  ⟨by norm_num,
    C1_composite_weighting.2 80 20 (by norm_num) (by norm_num)
      (by norm_num) (by norm_num)⟩

/-! ## C2 : the threshold policy -/

/-- C2.  The level classifier maps s < 35 to "low", 35 ≤ s < 65 to
"medium" and s ≥ 65 to "high"; the boundary values 34.999, 35, 64.999
and 65 land on "low", "medium", "medium" and "high"; and the report's
level is derived from the composite score by exactly this function. -/
theorem C2_threshold_policy :
    (∀ s : ℚ, (s < 35 → get_risk_level s = "low")
      ∧ (35 ≤ s → s < 65 → get_risk_level s = "medium")
      ∧ (65 ≤ s → get_risk_level s = "high"))
    ∧ get_risk_level 34.999 = "low"
    ∧ get_risk_level 35 = "medium"
    ∧ get_risk_level 64.999 = "medium"
    ∧ get_risk_level 65 = "high"
    ∧ (∀ air soil water ld,
        (generate_report air soil water ld).risk_level =
          get_risk_level (generate_report air soil water ld).risk_score) := by
  refine ⟨?_, ?_, ?_, ?_, ?_, ?_⟩
  · intro s
    refine ⟨fun h => ?_, fun h1 h2 => ?_, fun h => ?_⟩ <;>
      · simp only [get_risk_level]
        split_ifs <;> first | rfl | linarith
  · norm_num [get_risk_level]
  · norm_num [get_risk_level]
  · norm_num [get_risk_level]
  · norm_num [get_risk_level]
  · intro air soil water ld
    rcases ld with _ | l <;> rfl

/-- Witness for C2: the classifier applied at the concrete score 0. -/
theorem C2_threshold_policy_witness :
    (0:ℚ) < 35 ∧ get_risk_level 0 = "low" :=
  ⟨by norm_num, (C2_threshold_policy.1 0).1 (by norm_num)⟩

/-! ## C3 : the environmental aggregation formula -/

/-- Modelled from the claim text of C3 (spec §4.3 plus its default
clause): an aggregator in which ANY unknown, unrecognized or absent
contamination value defaults to 20 — including an absent (None) or
empty one.  The source instead maps absent/empty to "low". -/
def claim3_environmental_score (air : AirQualityResponse)
    (soil : SoilDataResponse) (water : WaterDataResponse) (m : ℚ) : ℚ :=
  let air_risk := min ((air.data.aqi : ℚ) / 500 * 100) 100
  let soil_risk :=
    if soil.properties.contamination_risk = "" then (20:ℚ)
    else soil_risk_map (lowerStr soil.properties.contamination_risk)
  let water_risk :=
    match water.contamination_risk with
    | none => (20:ℚ)
    | some s => if s = "" then 20 else water_risk_map (lowerStr s)
  min ((air_risk * 0.5 + soil_risk * 0.25 + water_risk * 0.25) * m) 100

/-- Counterexample to C3: with AQI 0, soil "low" and the water
contamination field ABSENT, the code scores 5 (absent water risk is
treated as "low" = 10), while the claim's default-to-20 rule predicts
7.5. -/
theorem C3_counterexample :
    min (calculate_environmental_risk aqiZeroAir lowSoil absentWater * 1) 100 = 5
    ∧ claim3_environmental_score aqiZeroAir lowSoil absentWater 1 = 7.5
    ∧ ¬ (min (calculate_environmental_risk aqiZeroAir lowSoil absentWater * 1) 100 =
        claim3_environmental_score aqiZeroAir lowSoil absentWater 1) := by
  refine ⟨?_, ?_, ?_⟩
  · simp +decide [calculate_environmental_risk, soil_risk_map,
      water_risk_map, aqiZeroAir, lowSoil, absentWater]
    norm_num [min_def]
  · simp +decide [claim3_environmental_score, soil_risk_map,
      water_risk_map, aqiZeroAir, lowSoil, absentWater]
    norm_num [min_def]
  · simp +decide [calculate_environmental_risk, claim3_environmental_score,
      soil_risk_map, water_risk_map, aqiZeroAir, lowSoil, absentWater]
    norm_num [min_def]

/-- The soil lookup after Python's `x.lower() if x else "low"`,
rewritten with the empty case resolved. -/
lemma soil_default_eq (cr : String) :
    soil_risk_map (if cr = "" then "low" else lowerStr cr) =
      if cr = "" then 10 else soil_risk_map (lowerStr cr) := by
  split_ifs <;> simp [soil_risk_map]

/-- The water lookup after Python's `x.lower() if x else "low"`,
rewritten with the absent and empty cases resolved. -/
lemma water_default_eq (w : Option String) :
    water_risk_map (match w with
      | none => "low"
      | some s => if s = "" then "low" else lowerStr s) =
      match w with
      | none => (10:ℚ)
      | some s => if s = "" then 10 else water_risk_map (lowerStr s) := by
  rcases w with _ | s
  · simp [water_risk_map]
  · dsimp only
    split_ifs <;> simp [water_risk_map]

/-- C3 (amended).  The environmental score is
`min((min(aqi/500*100,100)*0.5 + soilRisk*0.25 + waterRisk*0.25)*m, 100)`
with the multiplier applied once after aggregation and the lookup
tables {low:10, medium:40, high:80} and {low:10, medium:45, high:85};
an unrecognized NON-EMPTY contamination value defaults to 20, but an
absent or empty value is treated as "low" (sub-risk 10, not 20).
`generate_report` applies exactly this formula with m the
vulnerability multiplier. -/
theorem C3_environmental_formula (air : AirQualityResponse)
    (soil : SoilDataResponse) (water : WaterDataResponse) (m : ℚ)
    (_hm : 1 ≤ m) :
    (min (calculate_environmental_risk air soil water * m) 100 =
      min ((min ((air.data.aqi : ℚ) / 500 * 100) 100 * 0.5
        + (if soil.properties.contamination_risk = "" then 10
           else soil_risk_map (lowerStr soil.properties.contamination_risk))
            * 0.25
        + (match water.contamination_risk with
           | none => (10:ℚ)
           | some s => if s = "" then 10 else water_risk_map (lowerStr s))
            * 0.25) * m) 100)
    ∧ (∀ l, (generate_report air soil water (some l)).environmental_risk =
        min (calculate_environmental_risk air soil water *
          calculate_vulnerability_multiplier l) 100) := by
  constructor
  · simp only [calculate_environmental_risk]
    rw [soil_default_eq, water_default_eq]
  · intro l
    rfl

/-- Witness for C3 (amended) at m = 1 on concrete inputs. -/
theorem C3_environmental_formula_witness :
    (1:ℚ) ≤ 1 ∧
      ((min (calculate_environmental_risk aqiZeroAir lowSoil absentWater * 1) 100 =
        min ((min ((aqiZeroAir.data.aqi : ℚ) / 500 * 100) 100 * 0.5
          + (if lowSoil.properties.contamination_risk = "" then 10
             else soil_risk_map (lowerStr lowSoil.properties.contamination_risk))
              * 0.25
          + (match absentWater.contamination_risk with
             | none => (10:ℚ)
             | some s => if s = "" then 10 else water_risk_map (lowerStr s))
              * 0.25) * 1) 100)
      ∧ (∀ l, (generate_report aqiZeroAir lowSoil absentWater (some l)).environmental_risk =
          min (calculate_environmental_risk aqiZeroAir lowSoil absentWater *
            calculate_vulnerability_multiplier l) 100)) :=
  ⟨le_refl 1,
    C3_environmental_formula aqiZeroAir lowSoil absentWater 1 (le_refl 1)⟩


/-! ## C4 : clamping of scores -/

/-- The soil lookup only produces the values 10, 40, 80, 20. -/
lemma soil_risk_map_nonneg (s : String) : 0 ≤ soil_risk_map s := by
  simp only [soil_risk_map]
  split_ifs <;> norm_num

/-- The water lookup only produces the values 10, 45, 85, 20. -/
lemma water_risk_map_nonneg (s : String) : 0 ≤ water_risk_map s := by
  simp only [water_risk_map]
  split_ifs <;> norm_num

/-- For a nonnegative AQI the environmental base score is
nonnegative. -/
lemma env_base_nonneg (air : AirQualityResponse) (soil : SoilDataResponse)
    (water : WaterDataResponse) (h : 0 ≤ air.data.aqi) :
    0 ≤ calculate_environmental_risk air soil water := by
  simp only [calculate_environmental_risk]
  have haqi : (0:ℚ) ≤ (air.data.aqi : ℚ) := by exact_mod_cast h
  have h1 : (0:ℚ) ≤ min ((air.data.aqi : ℚ) / 500 * 100) 100 :=
    le_min (by positivity) (by norm_num)
  have h2 := soil_risk_map_nonneg
    (if soil.properties.contamination_risk = "" then "low"
     else lowerStr soil.properties.contamination_risk)
  have h3 := water_risk_map_nonneg
    (match water.contamination_risk with
     | none => "low"
     | some s => if s = "" then "low" else lowerStr s)
  linarith

/-- Points contributed by the optional stress question. -/
def stressPts (sl : Option String) : ℚ :=
  match sl with
  | none => 0
  | some s => if s = "" then 0 else STRESS_SCORES s

/-- Points contributed by the optional diet question. -/
def dietPts (dq : Option String) : ℚ :=
  match dq with
  | none => 0
  | some d =>
    if d = "" then 0 else if d = "good" then 0
    else if d = "poor" then 15 else 0

/-- Points contributed by the optional sleep question. -/
def sleepPts (sh : Option String) : ℚ :=
  match sh with
  | none => 0
  | some h =>
    if h = "" then 0 else if h = "6-8" then 0
    else if h = "<6" then 15 else 0

set_option maxHeartbeats 1000000 in
/-- The lifestyle risk score in closed form: the summed dimension
points times the age multiplier, capped at 100. -/
lemma lifestyle_score_eq (l : LifestyleInput) :
    (calculate_lifestyle_risk l).1 =
      min ((SMOKING_SCORES l.smoking_status.value
        + ACTIVITY_SCORES l.activity_level.value
        + WORK_ENV_SCORES l.work_environment.value
        + stressPts l.stress_level + dietPts l.diet_quality
        + sleepPts l.sleep_hours)
        * get_age_multiplier l.age_range.value) 100 := by
  obtain ⟨age, g, sm, act, work, dq, sh, sl, mh⟩ := l
  simp only [calculate_lifestyle_risk, stressPts, dietPts, sleepPts]
  rcases sl with _ | s <;> rcases dq with _ | d <;> rcases sh with _ | hs <;>
    dsimp only <;>
    first
      | (split_ifs <;> (congr 1 <;> ring))
      | (congr 1 <;> ring)

/-- Each lookup table used by the lifestyle calculator is
nonnegative. -/
lemma lifestyle_tables_nonneg (s : String) :
    0 ≤ SMOKING_SCORES s ∧ 0 ≤ ACTIVITY_SCORES s ∧ 0 ≤ WORK_ENV_SCORES s
      ∧ 0 ≤ STRESS_SCORES s ∧ 0 ≤ get_age_multiplier s := by
  refine ⟨?_, ?_, ?_, ?_, ?_⟩ <;>
    · simp only [SMOKING_SCORES, ACTIVITY_SCORES, WORK_ENV_SCORES,
        STRESS_SCORES, get_age_multiplier]
      split_ifs <;> norm_num

/-- The optional-question point contributions are nonnegative. -/
lemma optional_pts_nonneg (o : Option String) :
    0 ≤ stressPts o ∧ 0 ≤ dietPts o ∧ 0 ≤ sleepPts o := by
  refine ⟨?_, ?_, ?_⟩ <;>
    · rcases o with _ | s
      · simp [stressPts, dietPts, sleepPts]
      · simp only [stressPts, dietPts, sleepPts]
        split_ifs <;>
          first
            | exact (lifestyle_tables_nonneg s).2.2.2.1
            | norm_num

/-- The lifestyle risk score always lies in [0, 100] (shared
helper). -/
lemma lifestyle_risk_bounds (l : LifestyleInput) :
    0 ≤ (calculate_lifestyle_risk l).1 ∧ (calculate_lifestyle_risk l).1 ≤ 100 := by
  rw [lifestyle_score_eq]
  constructor
  · refine le_min ?_ (by norm_num)
    refine mul_nonneg ?_ (lifestyle_tables_nonneg _).2.2.2.2
    have h1 := (lifestyle_tables_nonneg l.smoking_status.value).1
    have h2 := (lifestyle_tables_nonneg l.activity_level.value).2.1
    have h3 := (lifestyle_tables_nonneg l.work_environment.value).2.2.1
    have h4 := (optional_pts_nonneg l.stress_level).1
    have h5 := (optional_pts_nonneg l.diet_quality).2.1
    have h6 := (optional_pts_nonneg l.sleep_hours).2.2
    linarith
  · exact min_le_right _ _

/-- Counterexample to C4: a negative AQI is not clamped below zero —
the report's environmental and composite scores both go negative. -/
theorem C4_counterexample :
    (generate_report aqiNegAir lowSoil lowWater none).environmental_risk = -95
    ∧ (generate_report aqiNegAir lowSoil lowWater none).risk_score = -57
    ∧ ¬ (0 ≤ (generate_report aqiNegAir lowSoil lowWater none).risk_score) := by
  refine ⟨?_, ?_, ?_⟩ <;>
    · simp +decide [generate_report, calculate_environmental_risk,
        soil_risk_map, water_risk_map, aqiNegAir, lowSoil, lowWater]
      norm_num [min_def]

/-- C4 (amended).  For every reading with a nonnegative AQI (and
arbitrary contamination strings) the environmental, lifestyle and
composite scores all stay in [0,100]: the caps bound every score
above, and nonnegative inputs keep them nonnegative.  A negative AQI,
however, is neither rejected nor clamped below (see the
counterexample). -/
theorem C4_scores_clamped (air : AirQualityResponse)
    (soil : SoilDataResponse) (water : WaterDataResponse)
    (ld : Option LifestyleInput) (h : 0 ≤ air.data.aqi) :
    (0 ≤ (generate_report air soil water ld).environmental_risk
      ∧ (generate_report air soil water ld).environmental_risk ≤ 100)
    ∧ (0 ≤ (generate_report air soil water ld).lifestyle_risk
      ∧ (generate_report air soil water ld).lifestyle_risk ≤ 100)
    ∧ (0 ≤ (generate_report air soil water ld).risk_score
      ∧ (generate_report air soil water ld).risk_score ≤ 100) := by
  obtain ⟨he, hl, hs⟩ := report_fields air soil water ld
  have hbase := env_base_nonneg air soil water h
  have henv : 0 ≤ (generate_report air soil water ld).environmental_risk
      ∧ (generate_report air soil water ld).environmental_risk ≤ 100 := by
    rw [he]
    refine ⟨le_min ?_ (by norm_num), min_le_right _ _⟩
    rcases ld with _ | l
    · dsimp only
      nlinarith
    · dsimp only
      have := one_le_vulnerability l
      nlinarith
  have hlif : 0 ≤ (generate_report air soil water ld).lifestyle_risk
      ∧ (generate_report air soil water ld).lifestyle_risk ≤ 100 := by
    rw [hl]
    rcases ld with _ | l
    · norm_num
    · exact lifestyle_risk_bounds l
  refine ⟨henv, hlif, ?_⟩
  rw [hs]
  constructor <;> nlinarith [henv.1, henv.2, hlif.1, hlif.2]

/-- Witness for C4 at AQI 150 with no lifestyle profile. -/
theorem C4_scores_clamped_witness :
    (0 ≤ aqi150Air.data.aqi) ∧
      ((0 ≤ (generate_report aqi150Air lowSoil lowWater none).environmental_risk
        ∧ (generate_report aqi150Air lowSoil lowWater none).environmental_risk ≤ 100)
      ∧ (0 ≤ (generate_report aqi150Air lowSoil lowWater none).lifestyle_risk
        ∧ (generate_report aqi150Air lowSoil lowWater none).lifestyle_risk ≤ 100)
      ∧ (0 ≤ (generate_report aqi150Air lowSoil lowWater none).risk_score
        ∧ (generate_report aqi150Air lowSoil lowWater none).risk_score ≤ 100)) :=
  ⟨by norm_num [aqi150Air],
    C4_scores_clamped aqi150Air lowSoil lowWater none (by norm_num [aqi150Air])⟩


/-! ## C7 : factor generation per lifestyle dimension -/

/-- The smoking branch's risk-factor output. -/
def smokingRF (sm : SmokingStatus) : List String :=
  if SMOKING_SCORES sm.value = 0 then []
  else if SMOKING_SCORES sm.value > 30 then
    ["Current smoker - significant health risk factor"]
  else ["Former smoker - reduced but present health impact"]

/-- The smoking branch's positive-factor output. -/
def smokingPF (sm : SmokingStatus) : List String :=
  if SMOKING_SCORES sm.value = 0 then
    ["Non-smoker - excellent respiratory health foundation"]
  else []

/-- The activity branch's risk-factor output. -/
def activityRF (act : ActivityLevel) : List String :=
  if ACTIVITY_SCORES act.value = 0 then []
  else if ACTIVITY_SCORES act.value > 20 then
    ["Sedentary lifestyle - increases multiple health risks"]
  else []

/-- The activity branch's positive-factor output. -/
def activityPF (act : ActivityLevel) : List String :=
  if ACTIVITY_SCORES act.value = 0 then
    ["Active lifestyle - strong cardiovascular protection"]
  else if ACTIVITY_SCORES act.value > 20 then []
  else ["Moderate activity level - good health maintenance"]

/-- The work-environment branch's risk-factor output. -/
def workRF (work : WorkEnvironment) : List String :=
  if WORK_ENV_SCORES work.value > 0 then
    [capitalizeStr work.value ++
      " work environment - increased environmental exposure"]
  else []

/-- The stress branch's risk-factor output. -/
def stressRF (sl : Option String) : List String :=
  match sl with
  | none => []
  | some s =>
    if s = "" then []
    else if STRESS_SCORES s > 15 then
      ["High stress level - impacts immune system and overall health"]
    else if STRESS_SCORES s > 0 then
      ["Moderate stress level - manageable with interventions"]
    else []

/-- The diet branch's risk-factor output. -/
def dietRF (dq : Option String) : List String :=
  match dq with
  | none => []
  | some d =>
    if d = "" then [] else if d = "good" then []
    else if d = "poor" then
      ["Poor diet quality - affects overall health resilience"]
    else []

/-- The diet branch's positive-factor output. -/
def dietPF (dq : Option String) : List String :=
  match dq with
  | none => []
  | some d =>
    if d = "" then []
    else if d = "good" then ["Good diet quality - supports immune function"]
    else if d = "poor" then []
    else []

/-- The sleep branch's risk-factor output. -/
def sleepRF (sh : Option String) : List String :=
  match sh with
  | none => []
  | some h =>
    if h = "" then [] else if h = "6-8" then []
    else if h = "<6" then ["Insufficient sleep - weakens immune response"]
    else []

/-- The sleep branch's positive-factor output. -/
def sleepPF (sh : Option String) : List String :=
  match sh with
  | none => []
  | some h =>
    if h = "" then []
    else if h = "6-8" then
      ["Adequate sleep - supports recovery and immune function"]
    else if h = "<6" then []
    else []

/-- The two factor lists of the lifestyle calculator, decomposed by
dimension in emission order. -/
lemma lifestyle_factors_eq (l : LifestyleInput) :
    (calculate_lifestyle_risk l).2.1 =
      smokingRF l.smoking_status ++ activityRF l.activity_level ++
        workRF l.work_environment ++ stressRF l.stress_level ++
        dietRF l.diet_quality ++ sleepRF l.sleep_hours
    ∧ (calculate_lifestyle_risk l).2.2 =
      smokingPF l.smoking_status ++ activityPF l.activity_level ++
        dietPF l.diet_quality ++ sleepPF l.sleep_hours := by
  obtain ⟨age, g, sm, act, work, dq, sh, sl, mh⟩ := l
  simp only [calculate_lifestyle_risk, smokingRF, smokingPF, activityRF,
    activityPF, workRF, stressRF, dietRF, dietPF, sleepRF, sleepPF]
  refine ⟨?_, ?_⟩ <;>
    rcases sl with _ | s <;> rcases dq with _ | d <;> rcases sh with _ | hs <;>
      · simp only [apply_ite (Prod.snd), apply_ite (Prod.fst)]
        try rfl

/-- The smoking factor lists keyed directly on the enum. -/
lemma smoking_factors_eq (sm : SmokingStatus) :
    smokingRF sm = (match sm with
      | .never => []
      | .former => ["Former smoker - reduced but present health impact"]
      | .current => ["Current smoker - significant health risk factor"])
    ∧ smokingPF sm = (match sm with
      | .never => ["Non-smoker - excellent respiratory health foundation"]
      | _ => []) := by
  cases sm <;> exact ⟨by decide, by decide⟩

/-- The activity factor lists keyed directly on the enum; note the
moderate band (10 points) emits a positive factor. -/
lemma activity_factors_eq (act : ActivityLevel) :
    activityRF act = (match act with
      | .sedentary => ["Sedentary lifestyle - increases multiple health risks"]
      | _ => [])
    ∧ activityPF act = (match act with
      | .active => ["Active lifestyle - strong cardiovascular protection"]
      | .moderate => ["Moderate activity level - good health maintenance"]
      | .sedentary => []) := by
  cases act <;> exact ⟨by decide, by decide⟩

/-- The work-environment factor list keyed directly on the enum;
indoor work (0 points) emits nothing. -/
lemma work_factors_eq (work : WorkEnvironment) :
    workRF work = (match work with
      | .indoor => []
      | .outdoor =>
        ["Outdoor work environment - increased environmental exposure"]
      | .mixed =>
        ["Mixed work environment - increased environmental exposure"]) := by
  cases work <;> decide

/-- The stress factor list: only "high" and "medium" emit anything;
"low" (0 points) emits nothing. -/
lemma stress_factors_eq (sl : Option String) :
    stressRF sl =
      if sl = some "high" then
        ["High stress level - impacts immune system and overall health"]
      else if sl = some "medium" then
        ["Moderate stress level - manageable with interventions"]
      else [] := by
  rcases sl with _ | s
  · simp [stressRF]
  · dsimp only [stressRF]
    by_cases h1 : s = "high"
    · subst h1; decide
    · by_cases h2 : s = "medium"
      · subst h2; decide
      · by_cases h3 : s = ""
        · subst h3; decide
        · have hz : STRESS_SCORES s = 0 := by
            by_cases h4 : s = "low"
            · subst h4; decide
            · simp [STRESS_SCORES, h1, h2, h4]
          simp [h1, h2, h3, hz]

/-- The diet factor lists: only "poor" yields a risk factor and only
"good" a positive factor; "average" or anything else yields nothing. -/
lemma diet_factors_eq (dq : Option String) :
    dietRF dq = (if dq = some "poor" then
        ["Poor diet quality - affects overall health resilience"] else [])
    ∧ dietPF dq = (if dq = some "good" then
        ["Good diet quality - supports immune function"] else []) := by
  rcases dq with _ | d
  · simp [dietRF, dietPF]
  · refine ⟨?_, ?_⟩ <;>
      · dsimp only [dietRF, dietPF]
        split_ifs <;> simp_all

/-- The sleep factor lists: only "<6" yields a risk factor and only
"6-8" a positive factor; ">8" or anything else yields nothing. -/
lemma sleep_factors_eq (sh : Option String) :
    sleepRF sh = (if sh = some "<6" then
        ["Insufficient sleep - weakens immune response"] else [])
    ∧ sleepPF sh = (if sh = some "6-8" then
        ["Adequate sleep - supports recovery and immune function"] else []) := by
  rcases sh with _ | h
  · simp [sleepRF, sleepPF]
  · refine ⟨?_, ?_⟩ <;>
      · dsimp only [sleepRF, sleepPF]
        split_ifs <;> simp_all


/-- Counterexample to C7: for an adult never-smoker with MODERATE
activity and indoor work, the score is 10 (the moderate-activity
contribution is non-zero), yet the risk-factor list is empty and the
moderate-activity dimension generated a positive factor. -/
theorem C7_counterexample :
    (calculate_lifestyle_risk moderateAdult).1 = 10
    ∧ (calculate_lifestyle_risk moderateAdult).2.1 = []
    ∧ "Moderate activity level - good health maintenance" ∈
        (calculate_lifestyle_risk moderateAdult).2.2 := by
  refine ⟨?_, ?_, ?_⟩ <;>
    · simp +decide [calculate_lifestyle_risk, moderateAdult,
        SMOKING_SCORES, ACTIVITY_SCORES, WORK_ENV_SCORES, STRESS_SCORES,
        get_age_multiplier, SmokingStatus.value, ActivityLevel.value,
        WorkEnvironment.value, AgeRange.value]
      try norm_num [min_def]

set_option maxHeartbeats 2000000 in
/-- C7 (amended).  Factor generation per dimension: smoking and
activity always emit exactly one factor — positive for a zero
contribution, risk for a non-zero one, EXCEPT activity=moderate
(10 points) which emits a positive factor; work, stress, diet and
sleep emit a risk factor exactly for outdoor/mixed work, high/medium
stress, poor diet and <6 sleep, a positive factor exactly for good
diet and 6-8 sleep, and nothing otherwise (indoor work, low stress,
average/unrecognized diet, >8 sleep, or an absent answer). -/
theorem C7_factor_rules (l : LifestyleInput) :
    ("Non-smoker - excellent respiratory health foundation" ∈
        (calculate_lifestyle_risk l).2.2 ↔ l.smoking_status = .never)
    ∧ ("Current smoker - significant health risk factor" ∈
        (calculate_lifestyle_risk l).2.1 ↔ l.smoking_status = .current)
    ∧ ("Former smoker - reduced but present health impact" ∈
        (calculate_lifestyle_risk l).2.1 ↔ l.smoking_status = .former)
    ∧ ("Active lifestyle - strong cardiovascular protection" ∈
        (calculate_lifestyle_risk l).2.2 ↔ l.activity_level = .active)
    ∧ ("Moderate activity level - good health maintenance" ∈
        (calculate_lifestyle_risk l).2.2 ↔ l.activity_level = .moderate)
    ∧ ("Sedentary lifestyle - increases multiple health risks" ∈
        (calculate_lifestyle_risk l).2.1 ↔ l.activity_level = .sedentary)
    ∧ ("Outdoor work environment - increased environmental exposure" ∈
        (calculate_lifestyle_risk l).2.1 ↔ l.work_environment = .outdoor)
    ∧ ("Mixed work environment - increased environmental exposure" ∈
        (calculate_lifestyle_risk l).2.1 ↔ l.work_environment = .mixed)
    ∧ ("High stress level - impacts immune system and overall health" ∈
        (calculate_lifestyle_risk l).2.1 ↔ l.stress_level = some "high")
    ∧ ("Moderate stress level - manageable with interventions" ∈
        (calculate_lifestyle_risk l).2.1 ↔ l.stress_level = some "medium")
    ∧ ("Poor diet quality - affects overall health resilience" ∈
        (calculate_lifestyle_risk l).2.1 ↔ l.diet_quality = some "poor")
    ∧ ("Good diet quality - supports immune function" ∈
        (calculate_lifestyle_risk l).2.2 ↔ l.diet_quality = some "good")
    ∧ ("Insufficient sleep - weakens immune response" ∈
        (calculate_lifestyle_risk l).2.1 ↔ l.sleep_hours = some "<6")
    ∧ ("Adequate sleep - supports recovery and immune function" ∈
        (calculate_lifestyle_risk l).2.2 ↔ l.sleep_hours = some "6-8") := by
  obtain ⟨hrf, hpf⟩ := lifestyle_factors_eq l
  obtain ⟨hs1, hs2⟩ := smoking_factors_eq l.smoking_status
  obtain ⟨ha1, ha2⟩ := activity_factors_eq l.activity_level
  have hw := work_factors_eq l.work_environment
  have hst := stress_factors_eq l.stress_level
  obtain ⟨hd1, hd2⟩ := diet_factors_eq l.diet_quality
  obtain ⟨hsl1, hsl2⟩ := sleep_factors_eq l.sleep_hours
  rw [hrf, hpf, hs1, hs2, ha1, ha2, hw, hst, hd1, hd2, hsl1, hsl2]
  clear hrf hpf hs1 hs2 ha1 ha2 hw hst hd1 hd2 hsl1 hsl2
  refine ⟨?_, ?_, ?_, ?_, ?_, ?_, ?_, ?_, ?_, ?_, ?_, ?_, ?_, ?_⟩ <;>
    · cases l.smoking_status <;> cases l.activity_level <;>
        cases l.work_environment <;> split_ifs <;> simp_all


/-! ## C8 : smoking × pollution scenario -/

/-- Counterexample to C8: a current smoker (teen, otherwise best
answers, no medical history) at AQI 150 over low soil/water risk gets
composite score 26 and level "low" — not "at least medium". -/
theorem C8_counterexample :
    teenSmoker.smoking_status = .current
    ∧ aqi150Air.data.aqi = 150
    ∧ teenSmoker.medical_history = none
    ∧ (generate_report aqi150Air lowSoil lowWater (some teenSmoker)).risk_score = 26
    ∧ (generate_report aqi150Air lowSoil lowWater (some teenSmoker)).risk_level = "low" := by
  refine ⟨rfl, rfl, rfl, ?_, ?_⟩ <;>
    · simp +decide [generate_report, calculate_environmental_risk,
        calculate_lifestyle_risk, calculate_vulnerability_multiplier,
        soil_risk_map, water_risk_map, get_risk_level, SMOKING_SCORES,
        ACTIVITY_SCORES, WORK_ENV_SCORES, STRESS_SCORES, get_age_multiplier,
        round2, conditionBonus, respMatch, heartMatch, allergyMatch,
        SmokingStatus.value, ActivityLevel.value, WorkEnvironment.value,
        AgeRange.value, teenSmoker, aqi150Air, lowSoil, lowWater]
      norm_num [min_def, round_eq]

/-- C8 (amended).  For every current smoker at AQI 150 with no
medical history, the FIRST contributing factor is the smoking ×
pollution interaction factor, with category "interaction" and
severity "high".  The composite level, however, is not guaranteed to
reach "medium" (see the counterexample). -/
theorem C8_interaction_first (air : AirQualityResponse)
    (soil : SoilDataResponse) (water : WaterDataResponse)
    (l : LifestyleInput) (hs : l.smoking_status = .current)
    (ha : air.data.aqi = 150) (hm : l.medical_history = none) :
    (generate_report air soil water (some l)).contributing_factors.head? =
      some smokingInteractionFactor
    ∧ smokingInteractionFactor.category = "interaction"
    ∧ smokingInteractionFactor.severity = "high" := by
  refine ⟨?_, rfl, rfl⟩
  have h1 : (generate_report air soil water (some l)).contributing_factors =
      generate_contributing_factors air soil water
        (calculate_lifestyle_risk l).2.1 (calculate_lifestyle_risk l).2.2
        (some l) := rfl
  rw [h1]
  simp only [generate_contributing_factors, ha, hs, hm, SmokingStatus.value]
  norm_num

/-- Witness for C8 (amended) on the concrete scenario inputs. -/
theorem C8_interaction_first_witness :
    teenSmoker.smoking_status = .current ∧ aqi150Air.data.aqi = 150 ∧
      teenSmoker.medical_history = none ∧
      ((generate_report aqi150Air lowSoil lowWater (some teenSmoker)).contributing_factors.head? =
          some smokingInteractionFactor
        ∧ smokingInteractionFactor.category = "interaction"
        ∧ smokingInteractionFactor.severity = "high") :=
  ⟨rfl, rfl, rfl,
    C8_interaction_first aqi150Air lowSoil lowWater teenSmoker rfl rfl rfl⟩

/-! ## C9 : the feature vector -/

/-- Counterexample to C9: for a current smoker the feature vector's
"smoking" entry is 1, not the documented ordinal 2 (the code encodes
smoking as a binary flag). -/
theorem C9_counterexample :
    teenSmoker.smoking_status = .current
    ∧ (create_feature_vector aqi150Air lowSoil lowWater (some teenSmoker)).lookup "smoking"
        = some (some 1)
    ∧ ¬ ((create_feature_vector aqi150Air lowSoil lowWater (some teenSmoker)).lookup "smoking"
        = some (some 2)) := by
  refine ⟨rfl, ?_, ?_⟩ <;>
    · simp +decide [create_feature_vector, teenSmoker, aqi150Air, lowSoil,
        lowWater, SmokingStatus.value, List.lookup]
      try norm_num

/-- C9 (amended).  The feature vector contains exactly the keys
"aqi", "soil_ph", "water_ph" and "water_risk", plus "smoking" only
when a profile is present: "water_risk" is the ordinal
{low:1, medium:2, high:3} on the RAW string with 1 (not an absent key)
for unrecognized or absent values; "smoking" is the binary 0/1 flag
(never vs any smoker), not the ordinal 0/1/2; the soil contamination
ordinal and the other pollutant readings are not included;
"water_ph" copies the optional pH verbatim (a null value, not an
absent key, when missing). -/
theorem C9_feature_vector (air : AirQualityResponse)
    (soil : SoilDataResponse) (water : WaterDataResponse)
    (ld : Option LifestyleInput) :
    (create_feature_vector air soil water ld).lookup "aqi" =
      some (some ((air.data.aqi : ℚ)))
    ∧ (create_feature_vector air soil water ld).lookup "soil_ph" =
      some (some soil.properties.ph)
    ∧ (create_feature_vector air soil water ld).lookup "water_ph" =
      some water.ph
    ∧ (create_feature_vector air soil water ld).lookup "water_risk" =
      some (some (if water.contamination_risk = some "low" then 1
        else if water.contamination_risk = some "medium" then 2
        else if water.contamination_risk = some "high" then 3 else 1))
    ∧ (∀ l, ld = some l →
        (create_feature_vector air soil water ld).lookup "smoking" =
          some (some (if l.smoking_status = .never then 0 else 1)))
    ∧ (ld = none →
        (create_feature_vector air soil water ld).lookup "smoking" = none)
    ∧ (create_feature_vector air soil water ld).lookup "soil_risk" = none
    ∧ (create_feature_vector air soil water ld).lookup "pm25" = none := by
  rcases ld with _ | l
  · refine ⟨?_, ?_, ?_, ?_, ?_, ?_, ?_, ?_⟩
    · simp +decide [create_feature_vector, List.lookup]
    · simp +decide [create_feature_vector, List.lookup]
    · simp +decide [create_feature_vector, List.lookup]
    · cases hw : water.contamination_risk with
      | none => simp +decide [create_feature_vector, List.lookup, hw]
      | some s =>
        simp +decide [create_feature_vector, List.lookup, hw]
    · intro l hl
      cases hl
    · intro _
      simp +decide [create_feature_vector, List.lookup]
    · simp +decide [create_feature_vector, List.lookup]
    · simp +decide [create_feature_vector, List.lookup]
  · refine ⟨?_, ?_, ?_, ?_, ?_, ?_, ?_, ?_⟩
    · simp +decide [create_feature_vector, List.lookup]
    · simp +decide [create_feature_vector, List.lookup]
    · simp +decide [create_feature_vector, List.lookup]
    · cases hw : water.contamination_risk with
      | none => simp +decide [create_feature_vector, List.lookup, hw]
      | some s =>
        simp +decide [create_feature_vector, List.lookup, hw]
    · intro l2 hl
      cases hl
      rcases l with ⟨age, g, sm, act, work, dq, sh, sl, mh⟩
      cases sm <;>
        simp +decide [create_feature_vector, List.lookup,
          SmokingStatus.value]
    · intro hn
      cases hn
    · simp +decide [create_feature_vector, List.lookup]
    · simp +decide [create_feature_vector, List.lookup]

/-- Witness for C9 (amended): the smoking entry at a concrete
profile. -/
theorem C9_feature_vector_witness :
    some teenSmoker = some teenSmoker ∧
      (create_feature_vector aqi150Air lowSoil lowWater (some teenSmoker)).lookup "smoking" =
        some (some (if teenSmoker.smoking_status = .never then 0 else 1)) :=
  ⟨rfl,
    (C9_feature_vector aqi150Air lowSoil lowWater
      (some teenSmoker)).2.2.2.2.1 teenSmoker rfl⟩

end ChildSafe

